import Mathlib

/-!
Verification of the two scripts in this repository against their
natural-language specification:

* `images_to_glb.py` — a headless batch script that walks a directory of
  images, builds one textured plane per image inside the host 3D
  application, and exports each plane as a standalone `.glb` file.
* `glb_hotload_export.py` — a GUI add-on exposing export / import /
  reload operators over the host application's scene and GLB
  importer/exporter.

The host application's own behaviour (image loading, GLB encoding,
process launching) is modelled by explicit oracles; everything the
repository's own Python code decides (control flow, path construction,
error handling, state mutation order) is embedded faithfully below.
-/

deriving instance DecidableEq for Except

namespace ImagesToGlb

/-- Abstract content of an image file: its reported pixel dimensions and
an opaque pixel payload. -/
structure ImageData where
  width : Nat
  height : Nat
  pixels : Nat
deriving DecidableEq, Repr

/-- An entry of the recursive directory enumeration (`rglob`): its
directory path relative to the input directory (as path components), its
stem and suffix (`Path.stem` / `Path.suffix`, the suffix including the
leading dot), whether it is a regular file, and — when it is an image —
its content. -/
structure SrcFile where
  parent : List String
  stem : String
  ext : String
  isFile : Bool
  image : ImageData
deriving DecidableEq, Repr

/-- The extension set of `process_directory`:
`{'.png', '.jpg', '.jpeg', '.bmp', '.gif', '.tiff', '.tga'}`. -/
def image_extensions : List String :=
  [".png", ".jpg", ".jpeg", ".bmp", ".gif", ".tiff", ".tga"]

/-- Python's `str.lower()` (character-wise lowering, which on the ASCII
extension strings involved agrees with Python). -/
def strLower (s : String) : String := ⟨s.data.map Char.toLower⟩

/-- The filter of the batch loop: `file_path.is_file() and
file_path.suffix.lower() in image_extensions`. -/
def isImageFile (f : SrcFile) : Bool :=
  f.isFile && image_extensions.contains (strLower f.ext)

/-- Python division of two machine integers with the quotient value
idealized as the exact rational.  Only its raise/no-raise behaviour — a
zero denominator raises `ZeroDivisionError`, anything else returns
normally — and its determinism are exact, and the claims proved against
it rely on nothing else; the program itself produces a rounded IEEE-754
binary64 quotient, modelled bit-faithfully by `pyDivFloat` below. -/
def pyDiv (a b : Nat) : Except String ℚ :=
  if b = 0 then .error "ZeroDivisionError" else .ok (mkRat a b)

/-- The in-plane dimensions computed by `create_textured_plane` from the
image's reported pixel size (`if width > height: plane_width,
plane_height = 1.0, height / width else: plane_height, plane_width =
1.0, width / height`), with the division values idealized by `pyDiv`;
which branch is taken and whether the computation raises are exact, the
numeric values are not (see `planeDimsFloat` for the bit-faithful
version). -/
def planeDims (width height : Nat) : Except String (ℚ × ℚ) :=
  if width > height then
    match pyDiv height width with
    | .error e => .error e
    | .ok r => .ok (1, r)
  else
    match pyDiv width height with
    | .error e => .error e
    | .ok r => .ok (r, 1)

/-- The textured plane object built by `create_textured_plane`: named
after the image's stem, scaled to the computed dimensions, textured with
the image. -/
structure Plane where
  name : String
  dims : ℚ × ℚ
  image : ImageData
deriving DecidableEq, Repr

/-- The host scene of the headless run: the list of objects currently in
it (only planes built by this script ever survive a `clear_scene`). -/
abbrev Scene := List Plane

/-- `clear_scene`: select all, delete, purge orphan data — afterwards no
object and no transient datablock remains. -/
def clear_scene (_s : Scene) : Scene := []

/-- An output path: directory components followed by a file name. -/
abbrev OutPath := List String

/-- The output filesystem: a finite map from paths to exported GLB
content (the plane the host exporter serialised).  Writing to an
existing path overwrites it. -/
abbrev FS := List (OutPath × Plane)

/-- Write (or overwrite) one file. -/
def fsWrite (fs : FS) (p : OutPath) (c : Plane) : FS :=
  (p, c) :: (List.filter (fun e => !(decide (e.1 = p))) fs)

/-- Look a path up in the output filesystem. -/
def fsGet (fs : FS) (p : OutPath) : Option Plane :=
  (List.find? (fun e => decide (e.1 = p)) fs).map Prod.snd

/-- Host-side failure oracles for the calls the script only delegates:
whether `bpy.data.images.load` fails on a given file, and whether
`bpy.ops.export_scene.gltf` fails for a given plane and output path. -/
structure Env where
  loadFails : SrcFile → Bool
  exportFails : Plane → OutPath → Bool

/-- The output path `os.path.join(output_dir, image_name + ".glb")`
chosen by `convert_image_to_glb` inside the subdirectory computed by
`process_directory` from the file's relative path. -/
def outputPath (output_dir : List String) (f : SrcFile) : OutPath :=
  output_dir ++ f.parent ++ [f.stem ++ ".glb"]

/-- `convert_image_to_glb` for one file: clear the scene, load the image
and build the textured plane, then export it to
`<out_subdir>/<stem>.glb`.  Returns the outcome together with the scene
and output filesystem as the exception (if any) leaves them: state
mutated before the raise is not rolled back. -/
def convert_image_to_glb (env : Env) (f : SrcFile) (out_subdir : List String)
    (s : Scene) (fs : FS) : Except String OutPath × Scene × FS :=
  let s := clear_scene s
  if env.loadFails f then
    (.error "image load failed", s, fs)
  else
    match planeDims f.image.width f.image.height with
    | .error e => (.error e, s, fs)
    | .ok dims =>
      let plane : Plane := ⟨f.stem, dims, f.image⟩
      let s := s ++ [plane]
      let p := out_subdir ++ [f.stem ++ ".glb"]
      if env.exportFails plane p then
        (.error "export failed", s, fs)
      else
        (.ok p, s, fsWrite fs p plane)

/-- The state threaded through the batch loop of `process_directory`:
the host scene, the output filesystem, the log lines printed so far, and
the running `count` of successful conversions. -/
structure BatchState where
  scene : Scene
  fs : FS
  log : List String
  count : Nat
deriving DecidableEq, Repr

/-- Render a path for a log line. -/
def OutPath.render (p : OutPath) : String := String.intercalate "/" p

/-- One iteration of the `for file_path in files:` loop of
`process_directory`: skip non-image entries; otherwise compute the
output subdirectory from the relative path, attempt the conversion,
and on failure print the error and continue. -/
def processFile (env : Env) (output_dir : List String) (st : BatchState)
    (f : SrcFile) : BatchState :=
  if isImageFile f then
    let out_subdir := output_dir ++ f.parent
    match convert_image_to_glb env f out_subdir st.scene st.fs with
    | (.ok p, s, fs) =>
      { scene := s, fs := fs,
        log := st.log ++ ["Converted: " ++ f.stem ++ f.ext ++ " -> " ++ OutPath.render p],
        count := st.count + 1 }
    | (.error e, s, fs) =>
      { scene := s, fs := fs,
        log := st.log ++ ["Error converting " ++ f.stem ++ f.ext ++ ": " ++ e],
        count := st.count }
  else st

/-- `process_directory`: fold the per-file step over the enumeration. -/
def process_directory (env : Env) (output_dir : List String)
    (files : List SrcFile) (st : BatchState) : BatchState :=
  files.foldl (processFile env output_dir) st

/-- Whether the conversion of `f` raises an exception (for any of the
three reasons a raise can happen in `convert_image_to_glb`). -/
def convertFails (env : Env) (output_dir : List String) (f : SrcFile) : Bool :=
  env.loadFails f ||
    match planeDims f.image.width f.image.height with
    | .error _ => true
    | .ok dims => env.exportFails ⟨f.stem, dims, f.image⟩ (outputPath output_dir f)

/-- The discovered image files of an enumeration that convert
successfully. -/
def successes (env : Env) (output_dir : List String)
    (files : List SrcFile) : List SrcFile :=
  files.filter (fun f => isImageFile f && !convertFails env output_dir f)

end ImagesToGlb

namespace GlbHotload

/-- The object types Blender distinguishes, as far as this add-on cares:
the six types `clear_scene_objects` selects for deletion, plus the kinds
the claims single out (`CAMERA`, `LIGHT`) and a catch-all. -/
inductive ObjType
  | MESH | CURVE | SURFACE | META | FONT | EMPTY | CAMERA | LIGHT | OTHER
deriving DecidableEq, Repr

/-- A scene object: an identity, a type, its per-object selection state
(`obj.select_set` / `context.selected_objects`), and an opaque payload
standing for everything else about it. -/
structure Obj where
  id : Nat
  type : ObjType
  selected : Bool
  payload : Nat
deriving DecidableEq, Repr

/-- The two values of the `export_mode` enum property. -/
inductive ExportMode
  | SCENE | SELECTED
deriving DecidableEq, Repr

/-- The six configuration fields of `HOTLOAD_Props`. -/
structure Props where
  export_path : String
  glb_zoo_path : String
  export_mode : ExportMode
  apply_modifiers : Bool
  clear_scene : Bool
  viewer_path : String
deriving DecidableEq, Repr

/-- The filesystem as the operators observe and mutate it: the set of
existing regular files (with the content of files this add-on wrote) and
the set of existing directories. -/
structure FileSys where
  files : List (String × Nat)
  dirs : List String
deriving DecidableEq, Repr

/-- `os.path.exists`. -/
def pathExists (fs : FileSys) (p : String) : Bool :=
  (fs.files.any fun e => e.1 = p) || fs.dirs.contains p

/-- `os.makedirs`. -/
def makedirs (fs : FileSys) (d : String) : FileSys :=
  { fs with dirs := fs.dirs ++ [d] }

/-- Write (or overwrite) a file. -/
def writeFile (fs : FileSys) (p : String) (c : Nat) : FileSys :=
  { fs with files := (p, c) :: (fs.files.filter fun e => !(decide (e.1 = p))) }

/-- A report emitted via `self.report`. -/
structure Report where
  level : String
  message : String
deriving DecidableEq, Repr

/-- The result of an operator's `execute`. -/
inductive OpResult
  | FINISHED | CANCELLED
deriving DecidableEq, Repr

/-- The host-application calls the operators delegate to, modelled as
oracles: path normalisation (`bpy.path.abspath`), `os.path.dirname`,
the GLB importer (returning the imported objects or raising), the GLB
exporter (returning the written content or raising), the `pgrep`
duplicate-process check (returncode 0 means a viewer is running; the
call itself may raise), and the viewer launch (`subprocess.Popen`, which
may raise). -/
structure Host where
  abspath : String → String
  dirname : String → String
  importGltf : String → Except String (List Obj)
  exportGltf : String → List Obj → Bool → Except String Nat
  pgrepViewer : Except String Bool
  launchViewer : String → String → Except String Unit

/-- The mutable state an operator invocation touches: the configuration
property group, the scene's objects, the filesystem, the reports shown
to the user, and the record of viewer processes launched. -/
structure HState where
  props : Props
  objects : List Obj
  fs : FileSys
  reports : List Report
  launched : List (String × String)
deriving DecidableEq, Repr

/-- `clear_scene_objects`: deselect all objects, select every object
whose type is `MESH`, `CURVE`, `SURFACE`, `META`, `FONT` or `EMPTY`,
then delete the selected objects. -/
def deletableType (t : ObjType) : Bool :=
  match t with
  | .MESH | .CURVE | .SURFACE | .META | .FONT | .EMPTY => true
  | _ => false

/-- The selection pass and deletion of `clear_scene_objects`, step by
step on the object list. -/
def clear_scene_objects (objs : List Obj) : List Obj :=
  let objs := objs.map fun o => { o with selected := false }
  let objs := objs.map fun o =>
    if deletableType o.type then { o with selected := true } else o
  objs.filter fun o => !o.selected

/-- `context.selected_objects`. -/
def selectedObjects (objs : List Obj) : List Obj :=
  objs.filter fun o => o.selected

/-- The import path resolution of `HOTLOAD_OT_import.execute`:
`self.filepath if self.filepath else bpy.path.abspath(props.export_path)`. -/
def importPathOf (host : Host) (filepath : String) (props : Props) : String :=
  if filepath ≠ "" then filepath else host.abspath props.export_path

/-- `HOTLOAD_OT_import.execute` (the file-browser import): resolve
the import path from `self.filepath` (falling back to the export path),
check existence up front, then — inside the `try` — optionally clear the
scene and call the host importer. -/
def import_execute (host : Host) (filepath : String) (st : HState) :
    OpResult × HState :=
  let import_path := importPathOf host filepath st.props
  if import_path = "" || !pathExists st.fs import_path then
    (.CANCELLED, { st with
      reports := st.reports ++ [⟨"ERROR", "File not found: " ++ import_path⟩] })
  else
    let objs :=
      if st.props.clear_scene then clear_scene_objects st.objects else st.objects
    match host.importGltf import_path with
    | .ok imported =>
      (.FINISHED, { st with
          objects := objs ++ imported
          reports := st.reports ++ [⟨"INFO", "Imported: " ++ import_path⟩] })
    | .error e =>
      (.CANCELLED, { st with
          objects := objs
          reports := st.reports ++ [⟨"ERROR", "Import failed: " ++ e⟩] })

/-- `HOTLOAD_OT_import_from_path.execute` (the reload operator): the
same body with the import path always resolved from the export path. -/
def import_from_path_execute (host : Host) (st : HState) :
    OpResult × HState :=
  let import_path := host.abspath st.props.export_path
  if import_path = "" || !pathExists st.fs import_path then
    (.CANCELLED, { st with
      reports := st.reports ++ [⟨"ERROR", "File not found: " ++ import_path⟩] })
  else
    let objs :=
      if st.props.clear_scene then clear_scene_objects st.objects else st.objects
    match host.importGltf import_path with
    | .ok imported =>
      (.FINISHED, { st with
          objects := objs ++ imported
          reports := st.reports ++ [⟨"INFO", "Imported: " ++ import_path⟩] })
    | .error e =>
      (.CANCELLED, { st with
          objects := objs
          reports := st.reports ++ [⟨"ERROR", "Import failed: " ++ e⟩] })

/-- The `pgrep` duplicate-process check: returncode 0 means a viewer is
already running, and an exception in the check itself is treated as "not
running" (`except: viewer_running = False`). -/
def viewerRunning (host : Host) : Bool :=
  match host.pgrepViewer with
  | .ok b => b
  | .error _ => false

/-- The viewer-launch epilogue of `HOTLOAD_OT_export.execute`: when the
configured viewer path is non-empty and exists, run the `pgrep`
duplicate check, and when no viewer is detected attempt the launch,
downgrading a launch failure to a warning. -/
def launchViewerStep (host : Host) (export_path : String) (st : HState) : HState :=
  let viewer_path := host.abspath st.props.viewer_path
  if viewer_path ≠ "" && pathExists st.fs viewer_path then
    if !viewerRunning host then
      match host.launchViewer viewer_path export_path with
      | .ok _ =>
        { st with
            launched := st.launched ++ [(viewer_path, export_path)]
            reports := st.reports ++ [⟨"INFO", "Launched viewer: " ++ viewer_path⟩] }
      | .error e =>
        { st with
          reports := st.reports ++ [⟨"WARNING", "Could not launch viewer: " ++ e⟩] }
    else st
  else st

/-- The `os.makedirs` prologue of `HOTLOAD_OT_export.execute`: ensure
the export path's directory exists, creating it when missing.  Note
this runs before any selection check. -/
def ensuredFS (host : Host) (st : HState) : FileSys :=
  let export_dir := host.dirname (host.abspath st.props.export_path)
  if export_dir ≠ "" && !pathExists st.fs export_dir then
    makedirs st.fs export_dir
  else st.fs

/-- The selection check of `HOTLOAD_OT_export.execute`: `None` when the
operator cancels with "No objects selected", otherwise the
`use_selection` flag passed to the host exporter. -/
def exportSelection (st : HState) : Option Bool :=
  if st.props.export_mode = .SELECTED then
    if selectedObjects st.objects = [] then none else some true
  else some false

/-- The objects the host exporter serialises for a given `use_selection`
flag. -/
def exportObjects (st : HState) (use_selection : Bool) : List Obj :=
  if use_selection then selectedObjects st.objects else st.objects

/-- `HOTLOAD_OT_export.execute`: resolve the export path, create its
directory if missing, check the selection when exporting selected only,
call the host exporter inside a `try`, then run the viewer epilogue. -/
def export_execute (host : Host) (st : HState) : OpResult × HState :=
  let export_path := host.abspath st.props.export_path
  let st := { st with fs := ensuredFS host st }
  match exportSelection st with
  | none =>
    (.CANCELLED, { st with
      reports := st.reports ++ [⟨"WARNING", "No objects selected"⟩] })
  | some use_selection =>
    match host.exportGltf export_path (exportObjects st use_selection)
        st.props.apply_modifiers with
    | .error e =>
      (.CANCELLED, { st with
        reports := st.reports ++ [⟨"ERROR", "Export failed: " ++ e⟩] })
    | .ok content =>
      let st := { st with
          fs := writeFile st.fs export_path content
          reports := st.reports ++ [⟨"INFO", "Exported to " ++ export_path⟩] }
      (.FINISHED, launchViewerStep host export_path st)

end GlbHotload

namespace ImagesToGlb

/-- The plane `create_textured_plane` builds for an image file (the
dimensions default to `(0, 0)` in the division-by-zero case, which never
arises for a successful conversion). -/
def planeOf (f : SrcFile) : Plane :=
  ⟨f.stem,
    match planeDims f.image.width f.image.height with
    | .ok dims => dims
    | .error _ => (0, 0),
    f.image⟩

/-- The scene contents `convert_image_to_glb` leaves behind: empty when
it raised before the plane was built, otherwise the single plane. -/
def sceneAfter (env : Env) (f : SrcFile) : Scene :=
  if env.loadFails f then []
  else
    match planeDims f.image.width f.image.height with
    | .error _ => []
    | .ok dims => [⟨f.stem, dims, f.image⟩]

/-- The message of the exception a failing conversion raises. -/
def errMsg (env : Env) (output_dir : List String) (f : SrcFile) : String :=
  if env.loadFails f then "image load failed"
  else
    match planeDims f.image.width f.image.height with
    | .error e => e
    | .ok dims =>
      if env.exportFails ⟨f.stem, dims, f.image⟩ (outputPath output_dir f) then
        "export failed"
      else ""

/-- The log line one enumeration entry contributes: none for a non-image
entry, the per-file error line for a failing conversion, the success
line otherwise. -/
def logLineOf (env : Env) (output_dir : List String) (f : SrcFile) :
    Option String :=
  if isImageFile f then
    some (if convertFails env output_dir f then
        "Error converting " ++ f.stem ++ f.ext ++ ": " ++ errMsg env output_dir f
      else
        "Converted: " ++ f.stem ++ f.ext ++ " -> "
          ++ OutPath.render (outputPath output_dir f))
  else none

/-- The (path, content) writes the successful conversions perform, in
enumeration order. -/
def successWrites (env : Env) (output_dir : List String)
    (files : List SrcFile) : List (OutPath × Plane) :=
  (successes env output_dir files).map fun f => (outputPath output_dir f, planeOf f)

/-- Apply a list of file writes to the output filesystem in order. -/
def applyWrites (fs : FS) (l : List (OutPath × Plane)) : FS :=
  l.foldl (fun fs pc => fsWrite fs pc.1 pc.2) fs

/-- The paths present in the output filesystem. -/
def fsKeys (fs : FS) : List OutPath := fs.map Prod.fst

/-- A host environment in which no host call fails. -/
def env0 : Env := ⟨fun _ => false, fun _ _ => false⟩

/-- Two image files with the same stem `a` in the same directory: both
are discovered, none errors, yet both conversions write to the single
output path `out/a.glb`. -/
def files1 : List SrcFile :=
  [⟨[], "a", ".png", true, ⟨1, 1, 0⟩⟩,
   ⟨[], "a", ".jpg", true, ⟨1, 1, 1⟩⟩]

/-- A mixed enumeration: two images with distinct stems (one in a
subdirectory, one with an upper-case suffix), a non-image file, and a
directory entry. -/
def files2 : List SrcFile :=
  [⟨[], "a", ".png", true, ⟨2, 1, 0⟩⟩,
   ⟨["sub"], "b", ".JPG", true, ⟨1, 2, 1⟩⟩,
   ⟨[], "notes", ".txt", true, ⟨1, 1, 2⟩⟩,
   ⟨["sub"], "c", ".png", false, ⟨1, 1, 3⟩⟩]

/-- The batch state at script start: default scene cleared away, no
output yet. -/
def initState : BatchState := ⟨[], [], [], 0⟩

end ImagesToGlb

namespace GlbHotload

/-- A host whose importer always raises, whose exporter succeeds with
content `7`, whose `pgrep` check reports no viewer running, and whose
launches succeed. -/
def host0 : Host where
  abspath := id
  dirname := fun _ => "d"
  importGltf := fun _ => .error "host import error"
  exportGltf := fun _ _ _ => .ok 7
  pgrepViewer := .ok false
  launchViewer := fun _ _ => .ok ()

/-- A host like `host0` whose exporter also always raises. -/
def host1 : Host where
  abspath := id
  dirname := fun _ => "d"
  importGltf := fun _ => .error "host import error"
  exportGltf := fun _ _ _ => .error "host export error"
  pgrepViewer := .ok false
  launchViewer := fun _ _ => .ok ()

/-- A state in selected-only export mode with nothing selected and an
export directory that does not exist yet. -/
def st0 : HState where
  props := ⟨"f.glb", "", .SELECTED, true, true, ""⟩
  objects := []
  fs := ⟨[], []⟩
  reports := []
  launched := []

/-- A state in whole-scene mode whose export path exists on disk, with a
selected mesh in the scene and the clear-scene flag enabled. -/
def st1 : HState where
  props := ⟨"f.glb", "", .SCENE, true, true, ""⟩
  objects := [⟨1, .MESH, true, 5⟩]
  fs := ⟨[("f.glb", 0)], ["d"]⟩
  reports := []
  launched := []

/-- A state in whole-scene mode with a configured viewer executable that
exists on disk. -/
def st2 : HState where
  props := ⟨"f.glb", "", .SCENE, true, true, "viewer"⟩
  objects := [⟨1, .MESH, true, 5⟩]
  fs := ⟨[("viewer", 1)], ["d"]⟩
  reports := []
  launched := []

/-- Whether a viewer launch attempt succeeds. -/
def launchOk (host : Host) (vp ep : String) : Bool :=
  match host.launchViewer vp ep with
  | .ok _ => true
  | .error _ => false

end GlbHotload

namespace ImagesToGlb

/-- Bit length of a natural number, written with explicit fuel so that
it reduces by iota in the kernel: `bitlenAux fuel n` is the number of
binary digits of `n` whenever `fuel ≥ n`. -/
def bitlenAux : Nat → Nat → Nat
  | 0, _ => 0
  | fuel + 1, n => if n = 0 then 0 else bitlenAux fuel (n / 2) + 1

/-- Number of binary digits of `n`: for `n ≥ 1`,
`2 ^ (bitlen n - 1) ≤ n < 2 ^ bitlen n`. -/
def bitlen (n : Nat) : Nat := bitlenAux n n

/-- Round the fraction `a / d` (with `d > 0`) to the nearest integer,
ties to even — the rounding of IEEE-754 round-to-nearest and of
CPython's integer true division. -/
def roundNearestEven (a d : Nat) : Nat :=
  let k := a / d
  let r := a % d
  if 2 * r < d then k
  else if d < 2 * r then k + 1
  else if k % 2 = 0 then k else k + 1

/-- The binary64 grid fineness for the value `n / d` with `0 < n ≤ d`:
writing `e` for the binary exponent of `n / d` (the integer with
`2 ^ e ≤ n / d < 2 ^ (e + 1)`; `e ≤ 0` on this domain), the
representable doubles around `n / d` are spaced `2 ^ (e - 52)` apart in
the normal range and `2 ^ (-1074)` apart in the subnormal range, so the
matching shift is `s = min (52 - e) 1074`.  The exponent is read off
the bit lengths: with `a = bitlen n` and `b = bitlen d`, `e = a - b`
when `n * 2 ^ b ≥ d * 2 ^ a` and `e = a - b - 1` otherwise. -/
def fracScale (n d : Nat) : Nat :=
  let a := bitlen n
  let b := bitlen d
  let negE := (b - a) + (if n * 2 ^ b ≥ d * 2 ^ a then 0 else 1)
  min (52 + negE) 1074

/-- The IEEE-754 binary64 value nearest `n / d` (ties to even), for
`0 ≤ n ≤ d`, `0 < d` — the exact rational value of the double CPython's
`n / d` returns on this domain, which is the only shape
`create_textured_plane` divides in (smaller dimension over larger). -/
def fl64 (n d : Nat) : ℚ :=
  if n = 0 then 0
  else
    let s := fracScale n d
    mkRat (roundNearestEven (n * 2 ^ s) d) (2 ^ s)

/-- Python float true-division of two machine integers as the program
performs it: `ZeroDivisionError` on a zero denominator, otherwise the
binary64 rounding of the quotient. -/
def pyDivFloat (a b : Nat) : Except String ℚ :=
  if b = 0 then .error "ZeroDivisionError" else .ok (fl64 a b)

/-- The in-plane dimensions `create_textured_plane` computes, with the
divisions given Python's float semantics — the bit-faithful version of
`planeDims`. -/
def planeDimsFloat (width height : Nat) : Except String (ℚ × ℚ) :=
  if width > height then
    match pyDivFloat height width with
    | .error e => .error e
    | .ok r => .ok (1, r)
  else
    match pyDivFloat width height with
    | .error e => .error e
    | .ok r => .ok (r, 1)

end ImagesToGlb

namespace ImagesToGlb

theorem mkRat_natCast_eq_div (a b : Nat) : (mkRat a b : ℚ) = (a : ℚ) / (b : ℚ) := by
  rw [Rat.mkRat_eq_divInt, Rat.divInt_eq_div]
  push_cast
  rfl

theorem roundNearestEven_le (a d N : Nat) (hd : 0 < d) (h : a ≤ N * d) :
    roundNearestEven a d ≤ N := by
  have hk : a / d ≤ N := by
    calc a / d ≤ N * d / d := Nat.div_le_div_right h
    _ = N := Nat.mul_div_cancel N hd
  have heq : d * (a / d) + a % d = a := Nat.div_add_mod a d
  have hrd : a % d < d := Nat.mod_lt a hd
  unfold roundNearestEven
  by_cases h1 : 2 * (a % d) < d
  · simpa [h1] using hk
  · have hlt : a / d < N := by
      rcases Nat.lt_or_ge (a / d) N with hlt | hge
      · exact hlt
      · exfalso
        have h2 : d * N ≤ d * (a / d) := Nat.mul_le_mul_left d hge
        rw [Nat.mul_comm] at h
        omega
    by_cases h2 : d < 2 * (a % d)
    · simpa [h1, h2] using hlt
    · by_cases h3 : a / d % 2 = 0
      · simp [h1, h2, h3]
        omega
      · simp [h1, h2, h3]
        omega

theorem roundNearestEven_close (a d : Nat) (hd : 0 < d) :
    |(roundNearestEven a d : ℚ) - (a : ℚ) / (d : ℚ)| ≤ 1 / 2 := by
  have heq : d * (a / d) + a % d = a := Nat.div_add_mod a d
  have hrd : a % d < d := Nat.mod_lt a hd
  have hd' : (0 : ℚ) < (d : ℚ) := by exact_mod_cast hd
  have hnat : a = a / d * d + a % d := by
    rw [Nat.mul_comm] at heq
    exact heq.symm
  have hcast : (a : ℚ) = ((a / d : Nat) : ℚ) * (d : ℚ) + ((a % d : Nat) : ℚ) := by
    exact_mod_cast congrArg (fun n : Nat => (n : ℚ)) hnat
  have hsplit : (a : ℚ) / (d : ℚ)
      = ((a / d : Nat) : ℚ) + ((a % d : Nat) : ℚ) / (d : ℚ) := by
    rw [hcast]
    field_simp
  have hr0 : (0 : ℚ) ≤ ((a % d : Nat) : ℚ) / (d : ℚ) := by positivity
  have hr1 : ((a % d : Nat) : ℚ) / (d : ℚ) ≤ 1 := by
    apply div_le_one_of_le₀
    · exact_mod_cast hrd.le
    · positivity
  unfold roundNearestEven
  by_cases h1 : 2 * (a % d) < d
  · have hhalf : ((a % d : Nat) : ℚ) / (d : ℚ) ≤ 1 / 2 := by
      rw [div_le_div_iff₀ hd' (by norm_num : (0 : ℚ) < 2)]
      exact_mod_cast (by omega : (a % d) * 2 ≤ 1 * d)
    simp only [h1, if_true]
    rw [hsplit, abs_le]
    constructor <;> linarith
  · have hhalf : 1 / 2 ≤ ((a % d : Nat) : ℚ) / (d : ℚ) := by
      rw [div_le_div_iff₀ (by norm_num : (0 : ℚ) < 2) hd']
      exact_mod_cast (by omega : 1 * d ≤ (a % d) * 2)
    by_cases h2 : d < 2 * (a % d)
    · simp only [h1, h2, if_false, if_true]
      push_cast
      rw [hsplit, abs_le]
      constructor <;> linarith
    · have hhalf2 : ((a % d : Nat) : ℚ) / (d : ℚ) ≤ 1 / 2 := by
        rw [div_le_div_iff₀ hd' (by norm_num : (0 : ℚ) < 2)]
        exact_mod_cast (by omega : (a % d) * 2 ≤ 1 * d)
      by_cases h3 : a / d % 2 = 0
      · simp only [h1, h2, h3, if_false, if_true]
        rw [hsplit, abs_le]
        constructor <;> linarith
      · simp only [h1, h2, h3, if_false]
        push_cast
        rw [hsplit, abs_le]
        constructor <;> linarith

theorem fracScale_ge (n d : Nat) : 52 ≤ fracScale n d := by
  unfold fracScale
  exact le_min (Nat.le_add_right 52 _) (by norm_num)

theorem fl64_le_one (n d : Nat) (hd : 0 < d) (h : n ≤ d) : fl64 n d ≤ 1 := by
  unfold fl64
  by_cases h0 : n = 0
  · simp [h0]
  · simp only [h0, if_false]
    rw [mkRat_natCast_eq_div]
    apply div_le_one_of_le₀
    · have hle : n * 2 ^ fracScale n d ≤ 2 ^ fracScale n d * d := by
        rw [Nat.mul_comm]
        exact Nat.mul_le_mul_left _ h
      exact_mod_cast roundNearestEven_le (n * 2 ^ fracScale n d) d
        (2 ^ fracScale n d) hd hle
    · positivity

theorem fl64_close (n d : Nat) (hd : 0 < d) (h : n ≤ d) :
    |fl64 n d - (n : ℚ) / (d : ℚ)| ≤ 1 / 2 ^ 53 := by
  unfold fl64
  by_cases h0 : n = 0
  · subst h0
    simp
  · simp only [h0, if_false]
    have hs := fracScale_ge n d
    have hd' : (0 : ℚ) < (d : ℚ) := by exact_mod_cast hd
    have hp : (0 : ℚ) < ((2 ^ fracScale n d : Nat) : ℚ) := by positivity
    rw [mkRat_natCast_eq_div]
    have key : (((roundNearestEven (n * 2 ^ fracScale n d) d : Nat) : ℚ))
          / ((2 ^ fracScale n d : Nat) : ℚ) - (n : ℚ) / (d : ℚ)
        = (((roundNearestEven (n * 2 ^ fracScale n d) d : Nat) : ℚ)
            - ((n * 2 ^ fracScale n d : Nat) : ℚ) / (d : ℚ))
          / ((2 ^ fracScale n d : Nat) : ℚ) := by
      field_simp
      ring
    rw [key, abs_div, abs_of_pos hp]
    have hb := roundNearestEven_close (n * 2 ^ fracScale n d) d hd
    calc |((roundNearestEven (n * 2 ^ fracScale n d) d : Nat) : ℚ)
          - ((n * 2 ^ fracScale n d : Nat) : ℚ) / (d : ℚ)|
          / ((2 ^ fracScale n d : Nat) : ℚ)
        ≤ (1 / 2) / ((2 ^ fracScale n d : Nat) : ℚ) :=
          div_le_div_of_nonneg_right hb hp.le
      _ ≤ 1 / 2 ^ 53 := by
          rw [div_div]
          apply one_div_le_one_div_of_le
          · positivity
          · have hX : ((2 ^ 52 : Nat) : ℚ) ≤ ((2 ^ fracScale n d : Nat) : ℚ) := by
              exact_mod_cast Nat.pow_le_pow_right (by norm_num) hs
            calc (2 : ℚ) ^ 53 = 2 * ((2 ^ 52 : Nat) : ℚ) := by push_cast; ring
              _ ≤ 2 * ((2 ^ fracScale n d : Nat) : ℚ) := by linarith

/-- C10 (amended): for an image whose reported pixel width and height
are both positive, the dimensions `create_textured_plane` computes under
Python's float semantics make the larger side exactly 1.0, and the
smaller side is the image's aspect ratio rounded to the nearest IEEE-754
binary64 value — within `2⁻⁵³` of the exact ratio — so
`plane_width / plane_height` matches `width / height` only up to double
rounding, not exactly; an image reported as 0 × 0 still raises a
division-by-zero error instead of producing a plane. -/
theorem C10_plane_dimensions_float (w h : Nat) (hw : 0 < w) (hh : 0 < h) :
    (∃ pw ph : ℚ, planeDimsFloat w h = .ok (pw, ph) ∧
      max pw ph = 1 ∧
      min pw ph = fl64 (min w h) (max w h) ∧
      |min pw ph - ((min w h : Nat) : ℚ) / ((max w h : Nat) : ℚ)| ≤ 1 / 2 ^ 53) ∧
    planeDimsFloat 0 0 = .error "ZeroDivisionError" := by
  refine ⟨?_, rfl⟩
  by_cases hwh : h < w
  · have hmin : min w h = h := min_eq_right hwh.le
    have hmax : max w h = w := max_eq_left hwh.le
    have hle : fl64 h w ≤ 1 := fl64_le_one h w hw hwh.le
    refine ⟨1, fl64 h w, ?_, max_eq_left hle, ?_, ?_⟩
    · simp [planeDimsFloat, pyDivFloat, hwh, Nat.pos_iff_ne_zero.mp hw]
    · rw [min_eq_right hle, hmin, hmax]
    · rw [min_eq_right hle, hmin, hmax]
      exact fl64_close h w hw hwh.le
  · have hwh' : w ≤ h := Nat.le_of_not_lt hwh
    have hmin : min w h = w := min_eq_left hwh'
    have hmax : max w h = h := max_eq_right hwh'
    have hle : fl64 w h ≤ 1 := fl64_le_one w h hh hwh'
    refine ⟨fl64 w h, 1, ?_, max_eq_right hle, ?_, ?_⟩
    · simp [planeDimsFloat, pyDivFloat, hwh, Nat.pos_iff_ne_zero.mp hh]
    · rw [min_eq_left hle, hmin, hmax]
    · rw [min_eq_left hle, hmin, hmax]
      exact fl64_close w h hh hwh'

theorem C10_plane_dimensions_float_witness :
    0 < 3 ∧ 0 < 2 ∧
      ((∃ pw ph : ℚ, planeDimsFloat 3 2 = .ok (pw, ph) ∧
        max pw ph = 1 ∧
        min pw ph = fl64 (min 3 2) (max 3 2) ∧
        |min pw ph - ((min 3 2 : Nat) : ℚ) / ((max 3 2 : Nat) : ℚ)| ≤ 1 / 2 ^ 53) ∧
      planeDimsFloat 0 0 = .error "ZeroDivisionError") :=
  ⟨by decide, by decide, C10_plane_dimensions_float 3 2 (by decide) (by decide)⟩

/-- C10 (counterexample to the claim as stated): for a 3 × 2 image the
smaller plane dimension is the binary64 rounding of 2 / 3, namely
6004799503160661 / 2⁵³, so the dimensions' ratio is not exactly
width / height = 3 / 2. -/
theorem C10_counterexample :
    planeDimsFloat 3 2 = .ok (1, mkRat 6004799503160661 9007199254740992) ∧
    ¬ ((1 : ℚ) / (mkRat 6004799503160661 9007199254740992 : ℚ)
        = ((3 : Nat) : ℚ) / ((2 : Nat) : ℚ)) := by
  constructor
  · decide
  · have hmk : (mkRat 6004799503160661 9007199254740992 : ℚ)
        = (6004799503160661 : ℚ) / 9007199254740992 := by
      rw [Rat.mkRat_eq_divInt, Rat.divInt_eq_div]
      norm_num
    rw [hmk]
    push_cast
    norm_num

theorem fsWrite_idem (fs : FS) (p : OutPath) (c : Plane) :
    fsWrite (fsWrite fs p c) p c = fsWrite fs p c := by
  simp [fsWrite, List.filter_filter]

/-- C3: converting the same image file to the same output directory a
second time is idempotent: because the conversion clears the scene
first, a repeated run reproduces the first run's result, scene, and
output filesystem exactly (same output file at the same path). -/
theorem C3_convert_idempotent (env : Env) (f : SrcFile) (d : List String)
    (s : Scene) (fs : FS) :
    convert_image_to_glb env f d (convert_image_to_glb env f d s fs).2.1
      (convert_image_to_glb env f d s fs).2.2 =
    convert_image_to_glb env f d s fs := by
  unfold convert_image_to_glb clear_scene
  cases hl : env.loadFails f
  · cases hd : planeDims f.image.width f.image.height with
    | error e => simp [hd]
    | ok dims =>
      cases he : env.exportFails ⟨f.stem, dims, f.image⟩ (d ++ [f.stem ++ ".glb"])
      · simp [hd, he, fsWrite_idem]
      · simp [hd, he]
  · simp

end ImagesToGlb

namespace GlbHotload

/-- C9 (amended): `clear_scene_objects` deletes exactly the objects
whose type is `MESH`, `CURVE`, `SURFACE`, `META`, `FONT` or `EMPTY`;
every other object (cameras and lights in particular) is still present,
with every field unchanged except its selection state, which the initial
deselect-all pass resets to deselected. -/
theorem C9_clear_preserves_other_types (objs : List Obj) :
    clear_scene_objects objs =
      (objs.filter fun o => !deletableType o.type).map
        fun o => { o with selected := false } := by
  induction objs with
  | nil => rfl
  | cons o t ih =>
    simp only [clear_scene_objects, List.map_map] at ih ⊢
    simp only [List.map_cons, List.filter_cons]
    by_cases h : deletableType o.type
    · simp [h, ih, Function.comp]
    · simp [h, ih, Function.comp]

/-- C9 (counterexample to the claim as stated): a selected camera
survives `clear_scene_objects` but is not unmodified — the deselect-all
pass clears its selection state. -/
theorem C9_counterexample :
    clear_scene_objects [⟨0, .CAMERA, true, 0⟩] ≠ [⟨0, .CAMERA, true, 0⟩] ∧
    clear_scene_objects [⟨0, .CAMERA, true, 0⟩] = [⟨0, .CAMERA, false, 0⟩] := by
  decide

end GlbHotload

namespace GlbHotload

/-- C2 (amended): exporting in selected-only mode with nothing selected
returns a cancelled result, writes no file, changes no scene, reports a
warning, and launches nothing; the only possible filesystem effect is
the creation of the missing export directory, which the `os.makedirs`
prologue performs before the selection check. -/
theorem C2_export_selected_none (host : Host) (st : HState)
    (hmode : st.props.export_mode = .SELECTED)
    (hsel : selectedObjects st.objects = []) :
    export_execute host st =
      (.CANCELLED, { st with
          fs := ensuredFS host st
          reports := st.reports ++ [⟨"WARNING", "No objects selected"⟩] }) := by
  unfold export_execute exportSelection
  simp [hmode, hsel]

theorem C2_export_selected_none_witness :
    st0.props.export_mode = .SELECTED ∧ selectedObjects st0.objects = [] ∧
    export_execute host0 st0 =
      (.CANCELLED, { st0 with
          fs := ensuredFS host0 st0
          reports := st0.reports ++ [⟨"WARNING", "No objects selected"⟩] }) :=
  ⟨by decide, by decide, C2_export_selected_none host0 st0 (by decide) (by decide)⟩

/-- C2 (counterexample to the claim as stated): in selected-only mode
with nothing selected and a missing export directory, the operator
returns cancelled but is not free of filesystem effects — the export
directory has been created. -/
theorem C2_counterexample :
    st0.props.export_mode = .SELECTED ∧ selectedObjects st0.objects = [] ∧
    (export_execute host0 st0).1 = .CANCELLED ∧
    (export_execute host0 st0).2.fs ≠ st0.fs ∧
    (export_execute host0 st0).2.fs.dirs = ["d"] := by
  decide

/-- C4: when the resolved import path is empty or names no existing
file, both import operators report a "File not found" error and return
cancelled with the state otherwise untouched — in particular the scene
is not cleared even when the clear-scene flag is enabled. -/
theorem C4_import_nonexistent (host : Host) (fp : String) (st : HState) :
    ((importPathOf host fp st.props = "" ∨
        pathExists st.fs (importPathOf host fp st.props) = false) →
      import_execute host fp st =
        (.CANCELLED, { st with reports := st.reports ++
          [⟨"ERROR", "File not found: " ++ importPathOf host fp st.props⟩] })) ∧
    ((host.abspath st.props.export_path = "" ∨
        pathExists st.fs (host.abspath st.props.export_path) = false) →
      import_from_path_execute host st =
        (.CANCELLED, { st with reports := st.reports ++
          [⟨"ERROR", "File not found: " ++ host.abspath st.props.export_path⟩] })) := by
  constructor
  · intro h1
    unfold import_execute
    rcases h1 with h1 | h1 <;> simp [h1]
  · intro h2
    unfold import_from_path_execute
    rcases h2 with h2 | h2 <;> simp [h2]

theorem C4_import_nonexistent_witness :
    import_execute host0 "" st0 =
      (.CANCELLED, { st0 with reports := st0.reports ++
        [⟨"ERROR", "File not found: " ++ importPathOf host0 "" st0.props⟩] }) ∧
    import_from_path_execute host0 st0 =
      (.CANCELLED, { st0 with reports := st0.reports ++
        [⟨"ERROR", "File not found: " ++ host0.abspath st0.props.export_path⟩] }) :=
  ⟨(C4_import_nonexistent host0 "" st0).1 (by decide),
    (C4_import_nonexistent host0 "" st0).2 (by decide)⟩

/-- C5: when the host import or export call raises, the operator reports
a human-readable message carrying the exception, returns cancelled, and
does not roll back state already mutated before the failure: a scene
cleared before a failing import stays cleared, and an export directory
created before a failing export stays created. -/
theorem C5_host_failure_cancelled_no_rollback (host : Host) (fp : String)
    (st : HState) (e₁ e₂ e₃ : String) (u : Bool) :
    ((importPathOf host fp st.props ≠ "" ∧
        pathExists st.fs (importPathOf host fp st.props) = true) →
      host.importGltf (importPathOf host fp st.props) = .error e₁ →
      import_execute host fp st =
        (.CANCELLED, { st with
            objects := if st.props.clear_scene then clear_scene_objects st.objects
              else st.objects
            reports := st.reports ++ [⟨"ERROR", "Import failed: " ++ e₁⟩] })) ∧
    ((host.abspath st.props.export_path ≠ "" ∧
        pathExists st.fs (host.abspath st.props.export_path) = true) →
      host.importGltf (host.abspath st.props.export_path) = .error e₂ →
      import_from_path_execute host st =
        (.CANCELLED, { st with
            objects := if st.props.clear_scene then clear_scene_objects st.objects
              else st.objects
            reports := st.reports ++ [⟨"ERROR", "Import failed: " ++ e₂⟩] })) ∧
    (exportSelection st = some u →
      host.exportGltf (host.abspath st.props.export_path) (exportObjects st u)
        st.props.apply_modifiers = .error e₃ →
      export_execute host st =
        (.CANCELLED, { st with
            fs := ensuredFS host st
            reports := st.reports ++ [⟨"ERROR", "Export failed: " ++ e₃⟩] })) := by
  refine ⟨?_, ?_, ?_⟩
  · rintro ⟨hp1, hp2⟩ himp
    unfold import_execute
    simp [hp1, hp2, himp]
  · rintro ⟨hq1, hq2⟩ himp
    unfold import_from_path_execute
    simp [hq1, hq2, himp]
  · intro hsel hexp
    unfold export_execute
    have hsel' : exportSelection { st with fs := ensuredFS host st } = some u := hsel
    have hexp' : host.exportGltf (host.abspath st.props.export_path)
        (exportObjects { st with fs := ensuredFS host st } u)
        st.props.apply_modifiers = .error e₃ := hexp
    simp [hsel', hexp']

theorem C5_host_failure_witness :
    import_execute host1 "" st1 =
      (.CANCELLED, { st1 with
          objects := if st1.props.clear_scene then clear_scene_objects st1.objects
            else st1.objects
          reports := st1.reports ++
            [⟨"ERROR", "Import failed: " ++ "host import error"⟩] }) ∧
    import_from_path_execute host1 st1 =
      (.CANCELLED, { st1 with
          objects := if st1.props.clear_scene then clear_scene_objects st1.objects
            else st1.objects
          reports := st1.reports ++
            [⟨"ERROR", "Import failed: " ++ "host import error"⟩] }) ∧
    export_execute host1 st1 =
      (.CANCELLED, { st1 with
          fs := ensuredFS host1 st1
          reports := st1.reports ++
            [⟨"ERROR", "Export failed: " ++ "host export error"⟩] }) :=
  ⟨(C5_host_failure_cancelled_no_rollback host1 "" st1
      "host import error" "host import error" "host export error" false).1
      (by decide) (by decide),
   (C5_host_failure_cancelled_no_rollback host1 "" st1
      "host import error" "host import error" "host export error" false).2.1
      (by decide) (by decide),
   (C5_host_failure_cancelled_no_rollback host1 "" st1
      "host import error" "host import error" "host export error" false).2.2
      (by decide) (by decide)⟩

/-- C8: the six configuration fields are only read, never written, by
the export, import, and reload operators: every invocation leaves the
property group exactly as it was. -/
theorem launchViewerStep_props (host : Host) (p : String) (st : HState) :
    (launchViewerStep host p st).props = st.props := by
  unfold launchViewerStep
  cases hg : (decide (host.abspath st.props.viewer_path ≠ "") &&
      pathExists st.fs (host.abspath st.props.viewer_path))
  · simp only [Bool.and_eq_false_iff, decide_eq_false_iff_not, not_not] at hg
    rcases hg with hg | hg
    · simp [hg]
    · simp [hg]
  · simp only [Bool.and_eq_true, decide_eq_true_eq] at hg
    cases hr : viewerRunning host
    · cases hl : host.launchViewer (host.abspath st.props.viewer_path) p
      · simp [hg.1, hg.2, hr, hl]
      · simp [hg.1, hg.2, hr, hl]
    · simp [hg.1, hg.2, hr]

theorem C8_props_read_only (host : Host) (fp : String) (st : HState) :
    (import_execute host fp st).2.props = st.props ∧
    (import_from_path_execute host st).2.props = st.props ∧
    (export_execute host st).2.props = st.props := by
  refine ⟨?_, ?_, ?_⟩
  · simp only [import_execute]
    cases hg : (decide (importPathOf host fp st.props = "") ||
        !pathExists st.fs (importPathOf host fp st.props))
    · simp only [hg, Bool.false_eq_true, if_false]
      cases h : host.importGltf (importPathOf host fp st.props) <;> simp [h]
    · simp [hg]
  · simp only [import_from_path_execute]
    cases hg : (decide (host.abspath st.props.export_path = "") ||
        !pathExists st.fs (host.abspath st.props.export_path))
    · simp only [hg, Bool.false_eq_true, if_false]
      cases h : host.importGltf (host.abspath st.props.export_path) <;> simp [h]
    · simp [hg]
  · unfold export_execute
    cases hse : exportSelection { st with fs := ensuredFS host st } with
    | none => simp [hse]
    | some u =>
      cases hex : host.exportGltf (host.abspath st.props.export_path)
          (exportObjects { st with fs := ensuredFS host st } u)
          st.props.apply_modifiers with
      | error e => simp [hse, hex]
      | ok c => simp [hse, hex, launchViewerStep_props]

end GlbHotload

namespace GlbHotload

/-- C7: after a successful export the operator finishes regardless of
the viewer epilogue's outcome, and the viewer is launched — with the
exported file path as its argument — exactly when the configured viewer
path is non-empty and exists on disk, the duplicate-process check does
not report a viewer running, and the launch attempt itself succeeds; in
particular no viewer is launched when the check reports one running, and
a failed launch attempt leaves the finished result unchanged. -/
theorem C7_viewer_launch (host : Host) (st : HState) (c : Nat) (u : Bool)
    (hsel : exportSelection st = some u)
    (hok : host.exportGltf (host.abspath st.props.export_path)
      (exportObjects st u) st.props.apply_modifiers = .ok c) :
    (export_execute host st).1 = .FINISHED ∧
    (export_execute host st).2.launched =
      (if (host.abspath st.props.viewer_path ≠ "" &&
            pathExists (writeFile (ensuredFS host st)
                (host.abspath st.props.export_path) c)
              (host.abspath st.props.viewer_path)) &&
          (!viewerRunning host &&
            launchOk host (host.abspath st.props.viewer_path)
              (host.abspath st.props.export_path))
       then st.launched ++
         [(host.abspath st.props.viewer_path, host.abspath st.props.export_path)]
       else st.launched) := by
  unfold export_execute launchViewerStep
  have hsel' : exportSelection { st with fs := ensuredFS host st } = some u := hsel
  have hok' : host.exportGltf (host.abspath st.props.export_path)
      (exportObjects { st with fs := ensuredFS host st } u)
      st.props.apply_modifiers = .ok c := hok
  simp only [hsel', hok']
  refine ⟨trivial, ?_⟩
  cases hg : (decide (host.abspath st.props.viewer_path ≠ "") &&
      pathExists (writeFile (ensuredFS host st) (host.abspath st.props.export_path) c)
        (host.abspath st.props.viewer_path))
  · simp [hg]
  · cases hr : viewerRunning host
    · cases hl : host.launchViewer (host.abspath st.props.viewer_path)
        (host.abspath st.props.export_path)
      · simp [hg, hr, hl, launchOk]
      · simp [hg, hr, hl, launchOk]
    · simp [hg, hr]

end GlbHotload

namespace GlbHotload

theorem C7_viewer_launch_witness :
    exportSelection st2 = some false ∧
    host0.exportGltf (host0.abspath st2.props.export_path)
      (exportObjects st2 false) st2.props.apply_modifiers = .ok 7 ∧
    ((export_execute host0 st2).1 = .FINISHED ∧
      (export_execute host0 st2).2.launched =
        (if (host0.abspath st2.props.viewer_path ≠ "" &&
              pathExists (writeFile (ensuredFS host0 st2)
                  (host0.abspath st2.props.export_path) 7)
                (host0.abspath st2.props.viewer_path)) &&
            (!viewerRunning host0 &&
              launchOk host0 (host0.abspath st2.props.viewer_path)
                (host0.abspath st2.props.export_path))
         then st2.launched ++
           [(host0.abspath st2.props.viewer_path, host0.abspath st2.props.export_path)]
         else st2.launched)) :=
  ⟨by decide, by decide, C7_viewer_launch host0 st2 7 false (by decide) (by decide)⟩

end GlbHotload

namespace ImagesToGlb

theorem convert_eq (env : Env) (output_dir : List String) (f : SrcFile)
    (s : Scene) (fs : FS) :
    convert_image_to_glb env f (output_dir ++ f.parent) s fs =
      ((if convertFails env output_dir f then .error (errMsg env output_dir f)
        else .ok (outputPath output_dir f)),
       sceneAfter env f,
       (if convertFails env output_dir f then fs
        else fsWrite fs (outputPath output_dir f) (planeOf f))) := by
  unfold convert_image_to_glb convertFails errMsg sceneAfter planeOf outputPath
    clear_scene
  cases hl : env.loadFails f
  · cases hd : planeDims f.image.width f.image.height with
    | error e => simp [hd]
    | ok dims =>
      cases he : env.exportFails ⟨f.stem, dims, f.image⟩
          (output_dir ++ f.parent ++ [f.stem ++ ".glb"])
      all_goals rw [List.append_assoc] at he
      · simp [hd, he, List.append_assoc]
      · simp [hd, he, List.append_assoc]
  · simp

theorem processFile_eq (env : Env) (output_dir : List String)
    (st : BatchState) (f : SrcFile) :
    processFile env output_dir st f =
      if isImageFile f then
        if convertFails env output_dir f then
          { scene := sceneAfter env f, fs := st.fs,
            log := st.log ++ ["Error converting " ++ f.stem ++ f.ext ++ ": "
              ++ errMsg env output_dir f],
            count := st.count }
        else
          { scene := sceneAfter env f,
            fs := fsWrite st.fs (outputPath output_dir f) (planeOf f),
            log := st.log ++ ["Converted: " ++ f.stem ++ f.ext ++ " -> "
              ++ OutPath.render (outputPath output_dir f)],
            count := st.count + 1 }
      else st := by
  unfold processFile
  cases hi : isImageFile f
  · simp
  · simp only [if_true]
    rw [convert_eq]
    cases hc : convertFails env output_dir f
    · simp [hc]
    · simp [hc]

theorem process_directory_count_log (env : Env) (output_dir : List String)
    (files : List SrcFile) (st : BatchState) :
    (process_directory env output_dir files st).count
        = st.count + (successes env output_dir files).length ∧
    (process_directory env output_dir files st).log
        = st.log ++ files.filterMap (logLineOf env output_dir) := by
  induction files generalizing st with
  | nil => simp [process_directory, successes]
  | cons f t ih =>
    simp only [process_directory, List.foldl_cons] at ih ⊢
    rw [processFile_eq]
    cases hi : isImageFile f
    · simp only [Bool.false_eq_true, if_false]
      rw [(ih st).1, (ih st).2]
      simp [successes, logLineOf, hi]
    · cases hc : convertFails env output_dir f
      · simp only [hi, hc, Bool.false_eq_true, if_true, if_false]
        constructor
        · rw [(ih _).1]
          simp [successes, List.filter_cons, hi, hc]
          omega
        · rw [(ih _).2]
          simp [logLineOf, hi, hc, List.filterMap_cons]
      · simp only [hi, hc, if_true]
        constructor
        · rw [(ih _).1]
          simp [successes, List.filter_cons, hi, hc]
        · rw [(ih _).2]
          simp [logLineOf, hi, hc, List.filterMap_cons]

end ImagesToGlb

namespace ImagesToGlb

/-- C6: the batch loop processes every enumerated file: a failing
conversion contributes its per-file error line to the log and the loop
continues, so each discovered image — before and after any failure —
contributes exactly one log line, and the final count counts exactly the
successful conversions. -/
theorem C6_batch_survives_failures (env : Env) (output_dir : List String)
    (files : List SrcFile) (st : BatchState) :
    (process_directory env output_dir files st).count
        = st.count + (successes env output_dir files).length ∧
    (process_directory env output_dir files st).log
        = st.log ++ files.filterMap (logLineOf env output_dir) := by
  exact process_directory_count_log env output_dir files st

theorem process_directory_fs (env : Env) (output_dir : List String)
    (files : List SrcFile) (st : BatchState) :
    (process_directory env output_dir files st).fs =
      applyWrites st.fs (successWrites env output_dir files) := by
  induction files generalizing st with
  | nil => simp [process_directory, successWrites, successes, applyWrites]
  | cons f t ih =>
    simp only [process_directory, List.foldl_cons] at ih ⊢
    rw [processFile_eq]
    cases hi : isImageFile f
    · simp only [Bool.false_eq_true, if_false]
      rw [ih st]
      simp [successWrites, successes, List.filter_cons, hi]
    · cases hc : convertFails env output_dir f
      · simp only [hi, hc, Bool.false_eq_true, if_true, if_false]
        rw [ih _]
        simp [successWrites, successes, List.filter_cons, hi, hc, applyWrites]
      · simp only [hi, hc, if_true]
        rw [ih _]
        simp [successWrites, successes, List.filter_cons, hi, hc]

theorem fsGet_fsWrite_same (fs : FS) (p : OutPath) (c : Plane) :
    fsGet (fsWrite fs p c) p = some c := by
  simp [fsGet, fsWrite, List.find?_cons]

theorem find?_filter_ne (l : FS) (p q : OutPath) (h : p ≠ q) :
    List.find? (fun e => decide (e.1 = p))
        (l.filter fun e => !(decide (e.1 = q)))
      = List.find? (fun e => decide (e.1 = p)) l := by
  induction l with
  | nil => rfl
  | cons a t ih =>
    have hqp : ¬(q = p) := fun hqp => h hqp.symm
    by_cases haq : a.1 = q
    · have hap : ¬(a.1 = p) := fun hap => h (hap ▸ haq)
      simp [List.filter_cons, List.find?_cons, haq, hap, hqp, ih]
    · by_cases hap : a.1 = p
      · simp [List.filter_cons, List.find?_cons, haq, hap, h, ih]
      · simp [List.filter_cons, List.find?_cons, haq, hap, ih]

theorem fsGet_fsWrite_other (fs : FS) (p q : OutPath) (c : Plane)
    (h : p ≠ q) : fsGet (fsWrite fs q c) p = fsGet fs p := by
  have hq : ¬(q = p) := fun hqp => h hqp.symm
  simp [fsGet, fsWrite, List.find?_cons, hq, find?_filter_ne fs p q h]

theorem filter_ne_eq_self (fs : FS) (p : OutPath) (h : p ∉ fsKeys fs) :
    (List.filter (fun e => !(decide (e.1 = p))) fs) = fs := by
  apply List.filter_eq_self.mpr
  intro e he
  have hne : e.1 ≠ p := fun heq => h (heq ▸ List.mem_map_of_mem Prod.fst he)
  simp [hne]

theorem fsKeys_fsWrite_notmem (fs : FS) (p : OutPath) (c : Plane)
    (h : p ∉ fsKeys fs) : fsKeys (fsWrite fs p c) = p :: fsKeys fs := by
  unfold fsKeys fsWrite
  rw [filter_ne_eq_self fs p h, List.map_cons]

theorem fsWrite_length_notmem (fs : FS) (p : OutPath) (c : Plane)
    (h : p ∉ fsKeys fs) : (fsWrite fs p c).length = fs.length + 1 := by
  unfold fsWrite
  rw [filter_ne_eq_self fs p h, List.length_cons]

theorem applyWrites_get_notmem (l : List (OutPath × Plane)) (fs : FS)
    (p : OutPath) (h : p ∉ l.map Prod.fst) :
    fsGet (applyWrites fs l) p = fsGet fs p := by
  induction l generalizing fs with
  | nil => rfl
  | cons a t ih =>
    simp only [List.map_cons, List.mem_cons, not_or] at h
    simp only [applyWrites, List.foldl_cons]
    rw [show (List.foldl (fun fs pc => fsWrite fs pc.1 pc.2)
        (fsWrite fs a.1 a.2) t) = applyWrites (fsWrite fs a.1 a.2) t from rfl]
    rw [ih (fsWrite fs a.1 a.2) h.2, fsGet_fsWrite_other fs p a.1 a.2 h.1]

theorem applyWrites_nodup (l : List (OutPath × Plane)) (fs : FS)
    (hd : (l.map Prod.fst).Nodup)
    (hdisj : ∀ p ∈ l.map Prod.fst, p ∉ fsKeys fs) :
    (applyWrites fs l).length = fs.length + l.length ∧
    ∀ pc ∈ l, fsGet (applyWrites fs l) pc.1 = some pc.2 := by
  induction l generalizing fs with
  | nil => simp [applyWrites]
  | cons a t ih =>
    simp only [List.map_cons, List.nodup_cons] at hd
    have hafs : a.1 ∉ fsKeys fs :=
      hdisj a.1 (List.map_cons Prod.fst a t ▸ List.mem_cons_self a.1 (t.map Prod.fst))
    have hdisj' : ∀ p ∈ t.map Prod.fst, p ∉ fsKeys (fsWrite fs a.1 a.2) := by
      intro p hp
      rw [fsKeys_fsWrite_notmem fs a.1 a.2 hafs]
      simp only [List.mem_cons, not_or]
      refine ⟨fun hpa => hd.1 (hpa ▸ hp), hdisj p ?_⟩
      rw [List.map_cons]
      exact List.mem_cons_of_mem _ hp
    have hrec := ih (fsWrite fs a.1 a.2) hd.2 hdisj'
    have hfold : applyWrites fs (a :: t) = applyWrites (fsWrite fs a.1 a.2) t := rfl
    constructor
    · rw [hfold, hrec.1, fsWrite_length_notmem fs a.1 a.2 hafs]
      simp [Nat.add_assoc, Nat.add_comm 1 t.length]
    · intro pc hpc
      rcases List.mem_cons.mp hpc with hh | ht
      · subst hh
        rw [hfold, applyWrites_get_notmem t (fsWrite fs pc.1 pc.2) pc.1 hd.1,
          fsGet_fsWrite_same]
      · rw [hfold]
        exact hrec.2 pc ht

end ImagesToGlb

namespace ImagesToGlb

/-- C1 (amended): each discovered image file (regular file whose
lowercased suffix is a known image extension) whose conversion does not
raise gets exactly one conversion, writing `<stem>.glb` under the output
directory at the image's relative subdirectory; provided no two
successfully converted images map to the same output path (same relative
directory and stem), the run ends with exactly one output file per
successful image, at exactly that path. -/
theorem C1_batch_output_files (env : Env) (output_dir : List String)
    (files : List SrcFile)
    (hnodup : ((successes env output_dir files).map (outputPath output_dir)).Nodup) :
    ((process_directory env output_dir files initState).fs).length
        = (successes env output_dir files).length ∧
    ∀ f ∈ successes env output_dir files,
      fsGet (process_directory env output_dir files initState).fs
          (outputPath output_dir f) = some (planeOf f) := by
  rw [process_directory_fs]
  have hmap : (successWrites env output_dir files).map Prod.fst
      = (successes env output_dir files).map (outputPath output_dir) := by
    simp [successWrites, List.map_map]
  have hdisj : ∀ p ∈ (successWrites env output_dir files).map Prod.fst,
      p ∉ fsKeys initState.fs := by
    intro p _
    simp [initState, fsKeys]
  have h := applyWrites_nodup (successWrites env output_dir files)
    initState.fs (hmap ▸ hnodup) hdisj
  constructor
  · rw [h.1]
    simp [initState, successWrites]
  · intro f hf
    exact h.2 (outputPath output_dir f, planeOf f)
      (List.mem_map_of_mem (fun f => (outputPath output_dir f, planeOf f)) hf)

theorem C1_batch_output_files_witness :
    ((successes env0 ["out"] files2).map (outputPath ["out"])).Nodup ∧
    (((process_directory env0 ["out"] files2 initState).fs).length
        = (successes env0 ["out"] files2).length ∧
    ∀ f ∈ successes env0 ["out"] files2,
      fsGet (process_directory env0 ["out"] files2 initState).fs
          (outputPath ["out"] f) = some (planeOf f)) :=
  ⟨by decide, C1_batch_output_files env0 ["out"] files2 (by decide)⟩

/-- C1 (counterexample to the claim as stated): two discovered images
with the same stem in the same directory, neither of which errors, yield
a single output file, not one per image — the second conversion
overwrites `out/a.glb`. -/
theorem C1_counterexample :
    (files1.filter isImageFile).length = 2 ∧
    (successes env0 ["out"] files1).length = 2 ∧
    (process_directory env0 ["out"] files1 initState).fs.length = 1 ∧
    (process_directory env0 ["out"] files1 initState).fs.length ≠ 2 := by
  decide

end ImagesToGlb
